import Mathlib

/-!
A verification development for the chef-validator compute client plugin
(`chef_validator/engine/clients/nova.py`) and its password authentication
middleware (`chef_validator/api/middleware/auth_password.py`).

Modelling conventions:
* Python dictionaries are association lists, Python `None` and missing
  attributes are `Option`, raised exceptions are `Except` errors.
* Remote provider calls (novaclient, keystone) are modelled by passing the
  outcome of the underlying call as an explicit argument, so every function
  here is a pure function of the call outcomes it would observe.
-/

namespace ChefValidator

/-- The `novaclient.exceptions` hierarchy, as far as the plugin inspects it.
The concrete subclasses (`NotFound`, `OverLimit`, `BadRequest`, `Conflict`)
carry their fixed `http_status` class attribute (404, 413, 400, 409);
`clientException` stands for a generic `ClientException` whose `http_status`
and `code` attributes may each be present or absent; `otherException` is an
exception that is not a `ClientException` at all. -/
inductive NovaException where
  | notFound
  | overLimit
  | badRequest (message : String)
  | conflict
  | clientException (http_status : Option Nat) (code : Option Nat)
  | otherException
deriving DecidableEq, Repr

/-- `NovaClientPlugin.is_not_found`: `isinstance(ex, exceptions.NotFound)`. -/
def is_not_found : NovaException → Bool
  | .notFound => true
  | _ => false

/-- `NovaClientPlugin.is_over_limit`: `isinstance(ex, exceptions.OverLimit)`. -/
def is_over_limit : NovaException → Bool
  | .overLimit => true
  | _ => false

/-- `NovaClientPlugin.is_bad_request`: `isinstance(ex, exceptions.BadRequest)`. -/
def is_bad_request : NovaException → Bool
  | .badRequest _ => true
  | _ => false

/-- `NovaClientPlugin.is_conflict`: `isinstance(ex, exceptions.Conflict)`. -/
def is_conflict : NovaException → Bool
  | .conflict => true
  | _ => false

/-- `isinstance(ex, exceptions.ClientException)`: every modelled novaclient
error except a non-client exception. -/
def is_client_exception : NovaException → Bool
  | .otherException => false
  | _ => true

/-- `getattr(exc, 'http_status', getattr(exc, 'code', None))` as used in
`fetch_server` and `refresh_server`: the `http_status` attribute when present,
falling back to the `code` attribute. The concrete subclasses always carry
their class-level `http_status`. -/
def http_status_or_code : NovaException → Option Nat
  | .notFound => some 404
  | .overLimit => some 413
  | .badRequest _ => some 400
  | .conflict => some 409
  | .clientException http_status code => http_status.orElse (fun _ => code)
  | .otherException => none

/-- A server's `fault` attribute: a mapping with optional `message` and
`code` entries, read with `fault.get('message', ...)` / `fault.get('code')`. -/
structure Fault where
  message : Option String
  code : Option String
deriving DecidableEq, Repr

/-- A point-in-time server representation as read from Nova. `fault` models
`getattr(server, 'fault', {})` (`none` when the attribute is missing, which
behaves like the empty mapping) and `task_state` models
`getattr(server, 'OS-EXT-STS:task_state', None)`. `metadata` is the
server-side metadata mapping. -/
structure Server where
  status : String
  name : String
  fault : Option Fault
  task_state : Option String
  metadata : List (String × String)
deriving DecidableEq, Repr

/-- `fault.get('message', 'Unknown')` on `getattr(server, 'fault', {})`. -/
def Server.fault_message (server : Server) : Option String :=
  (server.fault.getD ⟨none, none⟩).message

/-- `fault.get('code', ...)` on `getattr(server, 'fault', {})`. -/
def Server.fault_code (server : Server) : Option String :=
  (server.fault.getD ⟨none, none⟩).code

/-- `NovaClientPlugin.deferred_server_statuses` (nova.py lines 45-54). -/
def deferred_server_statuses : List String :=
  ["BUILD", "HARD_REBOOT", "PASSWORD", "REBOOT", "RESCUE", "RESIZE",
   "REVERT_RESIZE", "SHUTOFF", "SUSPENDED", "VERIFY_RESIZE"]

/-- `NovaClientPlugin.get_status`: `server.status.split('(')[0]`, the prefix
of the raw status string before the first parenthesis (some clouds append an
extra `(STATUS)` suffix, which is stripped). -/
def get_status (server : Server) : String :=
  String.mk (server.status.data.takeWhile (fun c => c != '('))

/-- `NovaClientPlugin.fetch_server` (nova.py lines 126-149), as a function of
the outcome of the underlying `self.client().servers.get(server_id)` call.
`OverLimit` is absorbed (logged, `None` returned); any other
`ClientException` is absorbed only when its `http_status`-or-`code` is 500 or
503; everything else propagates. -/
def fetch_server (get_result : Except NovaException Server) :
    Except NovaException (Option Server) :=
  match get_result with
  | .ok server => .ok (some server)
  | .error exc =>
    if is_over_limit exc then .ok none
    else if is_client_exception exc then
      if http_status_or_code exc == some 500 || http_status_or_code exc == some 503 then
        .ok none
      else .error exc
    else .error exc

/-- `NovaClientPlugin.refresh_server` (nova.py lines 151-171), as a function
of the server being refreshed and the outcome of the in-place `server.get()`
call. On an absorbed error the server object is left unchanged; on success
it now carries the freshly read attributes. -/
def refresh_server (server : Server) (get_result : Except NovaException Server) :
    Except NovaException Server :=
  match get_result with
  | .ok refreshed => .ok refreshed
  | .error exc =>
    if is_over_limit exc then .ok server
    else if is_client_exception exc then
      if http_status_or_code exc == some 500 || http_status_or_code exc == some 503 then
        .ok server
      else .error exc
    else .error exc

/-- Nova.py line 41: `resource = None` (annotated `# todo resource usage
check`). The module-global `resource` is never assigned a module object, so
`resource.ResourceInError` / `resource.ResourceUnknownStatus` attribute
accesses fail at runtime. -/
def resource : Option Unit := none

/-- An exception raised by the plugin or the middleware. `nova` wraps a
propagated novaclient exception; `attributeError` models a Python
`AttributeError`; the remaining constructors model the domain conditions the
code tries to raise. -/
inductive RaisedError where
  | nova (exc : NovaException)
  | attributeError (message : String)
  | resourceInError (resource_status : String) (status_reason : String)
  | resourceUnknownStatus (resource_status : String) (result : String)
  | stackValidationFailed (message : String)
  | keyError (key : String)
deriving DecidableEq, Repr

/-- Evaluating `resource.<attr_name>(...)`: since module-global `resource` is
`None` (nova.py line 41), the attribute access raises `AttributeError`
before the intended condition object can be constructed; `intended` is the
condition the code would raise were `resource` a real module. -/
def raise_resource_attr (attr_name : String) (intended : RaisedError) : RaisedError :=
  match resource with
  | none => .attributeError
      ("\x27NoneType\x27 object has no attribute \x27" ++ attr_name ++ "\x27")
  | some _ => intended

/-- `"%(x)s" % value` on an optional string: Python formats `None` as
`"None"`. -/
def py_str_opt : Option String → String
  | some s => s
  | none => "None"

/-- Nova.py lines 213-227: the common tail of `_check_active`, branching on
the already-computed (normalized) `status` of `server`. -/
def check_active_tail (server : Server) (status : String) (res_name : String) :
    Except RaisedError Bool :=
  if deferred_server_statuses.contains status then .ok false
  else if status == "ACTIVE" then .ok true
  else if status == "ERROR" then
    .error (raise_resource_attr "ResourceInError"
      (.resourceInError status
        ("Message: " ++ py_str_opt (server.fault_message.orElse fun _ => some "Unknown") ++
         ", Code: " ++ py_str_opt (server.fault_code.orElse fun _ => some "Unknown"))))
  else
    .error (raise_resource_attr "ResourceUnknownStatus"
      (.resourceUnknownStatus server.status (res_name ++ " is not active")))

/-- The argument of `NovaClientPlugin._check_active`: either a server id
string (together with the outcome of the `servers.get` call that
`fetch_server` will perform on it) or an already-fetched server object
(together with the outcome of the `server.get()` call that `refresh_server`
would perform). -/
inductive CheckActiveInput where
  | byId (get_result : Except NovaException Server)
  | bySnapshot (server : Server) (refresh_get : Except NovaException Server)

/-- `NovaClientPlugin._check_active` (nova.py lines 189-227). Given an id:
fetch; absent means `False`. Given a snapshot whose normalized status is not
`ACTIVE`: refresh once and recompute the status. Then: deferred → `False`,
`ACTIVE` → `True`, `ERROR` → raise (via the `resource` module, see
`raise_resource_attr`), anything else → raise. -/
def check_active (input : CheckActiveInput) (res_name : String) :
    Except RaisedError Bool :=
  match input with
  | .byId get_result =>
    match fetch_server get_result with
    | .error exc => .error (.nova exc)
    | .ok none => .ok false
    | .ok (some server) => check_active_tail server (get_status server) res_name
  | .bySnapshot server refresh_get =>
    if get_status server != "ACTIVE" then
      match refresh_server server refresh_get with
      | .error exc => .error (.nova exc)
      | .ok server2 => check_active_tail server2 (get_status server2) res_name
    else
      check_active_tail server (get_status server) res_name

/-- Modelled from the spec: `ClientPlugin.ignore_not_found` lives in
`chef_validator/engine/clients/client_plugin.py`, which is not under src/;
per the spec, a not-found-class error is swallowed ("if the fetch raised a
not-found-class error, treat deletion as complete") and any other error is
re-raised. -/
def ignore_not_found (exc : NovaException) : Except RaisedError Unit :=
  if is_not_found exc then .ok () else .error (.nova exc)

/-- `NovaClientPlugin.check_delete_server_complete` (nova.py lines 380-406),
as a function of the outcome of the underlying `servers.get(server_id)` call
performed by `fetch_server`. -/
def check_delete_server_complete (get_result : Except NovaException Server) :
    Except RaisedError Bool :=
  match fetch_server get_result with
  | .error exc =>
    match ignore_not_found exc with
    | .ok _ => .ok true
    | .error e => .error e
  | .ok none => .ok false
  | .ok (some server) =>
    if server.task_state == some "deleting" then .ok false
    else
      let status := get_status server
      if status == "DELETED" || status == "SOFT_DELETED" then .ok true
      else if status == "ERROR" then
        .error (raise_resource_attr "ResourceInError"
          (.resourceInError status
            ("Server " ++ server.name ++ " delete failed: (" ++
             py_str_opt server.fault_code ++ ") " ++
             py_str_opt (server.fault_message.orElse fun _ => some "Unknown"))))
      else .ok false

/-- A Python value as it can appear in a metadata mapping: a string, an
integer, a boolean, `None`, a list, or a nested mapping (with string keys,
as Nova metadata uses). -/
inductive PyValue where
  | str (s : String)
  | int (n : Int)
  | bool (b : Bool)
  | none
  | list (xs : List PyValue)
  | dict (entries : List (String × PyValue))

/-- `isinstance(metadata, collections.Mapping)`. -/
def PyValue.is_mapping : PyValue → Bool
  | .dict _ => true
  | _ => false

/-- `isinstance(value, six.string_types)`. -/
def PyValue.is_str : PyValue → Bool
  | .str _ => true
  | _ => false

/-- Python truthiness of a value (`if metadata:`): empty strings, zero,
`False`, `None` and empty collections are falsy. -/
def PyValue.truthy : PyValue → Bool
  | .str s => !s.isEmpty
  | .int n => n != 0
  | .bool b => b
  | .none => false
  | .list xs => !xs.isEmpty
  | .dict es => !es.isEmpty

/-- JSON string escaping as performed by `json.dumps` for the characters
relevant here (backslash, quote, and common control characters). -/
def json_escape_char (c : Char) : String :=
  if c == '\\' then "\\\\"
  else if c == '\"' then "\\\""
  else if c == '\n' then "\\n"
  else if c == '\t' then "\\t"
  else if c == '\r' then "\\r"
  else String.mk [c]

/-- JSON string escaping applied to every character. -/
def json_escape (s : String) : String :=
  String.join (s.data.map json_escape_char)

mutual

/-- `oslo_serialization.jsonutils.dumps` (Python `json.dumps` with default
separators): the canonical JSON encoding of a value. -/
def dumps : PyValue → String
  | .str s => "\"" ++ json_escape s ++ "\""
  | .int n => toString n
  | .bool b => if b then "true" else "false"
  | .none => "null"
  | .list xs => "[" ++ String.intercalate ", " (dumps_list xs) ++ "]"
  | .dict es => "\x7b" ++ String.intercalate ", " (dumps_entries es) ++ "\x7d"

/-- JSON encodings of the elements of a list. -/
def dumps_list : List PyValue → List String
  | [] => []
  | x :: xs => dumps x :: dumps_list xs

/-- JSON encodings of the key/value entries of a mapping. -/
def dumps_entries : List (String × PyValue) → List String
  | [] => []
  | (k, v) :: es => ("\"" ++ json_escape k ++ "\": " ++ dumps v) :: dumps_entries es

end

/-- `NovaClientPlugin.meta_serialize` (nova.py lines 408-419): reject a
non-mapping with a validation failure; otherwise keep string values as they
are and JSON-encode every other value. -/
def meta_serialize (metadata : PyValue) : Except RaisedError (List (String × String)) :=
  match metadata with
  | .dict entries =>
    .ok (entries.map (fun kv =>
      (kv.1, match kv.2 with
             | .str s => s
             | v => dumps v)))
  | _ => .error (.stackValidationFailed "nova server metadata needs to be a Map.")

/-- A provider metadata operation issued by `meta_update`. -/
inductive MetaOp where
  | delete_meta (keys : List String)
  | set_meta (metadata : List (String × String))
deriving DecidableEq, Repr

/-- `NovaClientPlugin.meta_update` (nova.py lines 421-431), returning the
ordered sequence of provider calls it issues: `to_del` is the list of
current keys absent from the serialized desired mapping; `delete_meta` is
issued first and only when `to_del` is non-empty; `set_meta` with the full
serialized mapping is always issued afterwards. -/
def meta_update (server : Server) (metadata : PyValue) :
    Except RaisedError (List MetaOp) :=
  match meta_serialize metadata with
  | .error e => .error e
  | .ok md =>
    let current_md := server.metadata
    let to_del := (current_md.map Prod.fst).filter
      (fun key => !((md.map Prod.fst).contains key))
    .ok ((if to_del.length > 0 then [MetaOp.delete_meta to_del] else []) ++
         [MetaOp.set_meta md])

/-- The console-url methods of a server object as called by
`get_console_urls`; each one models
`server.get_*_console(key)['console']['url']`, i.e. it yields the extracted
URL or raises a novaclient exception. -/
structure ServerConsoleApi where
  get_vnc_console : String → Except NovaException String
  get_spice_console : String → Except NovaException String
  get_rdp_console : String → Except NovaException String
  get_serial_console : String → Except NovaException String

/-- The `ConsoleUrls` mapping object built by `get_console_urls`
(nova.py lines 451-485): its `console_methods` dictionary. -/
structure ConsoleUrls where
  console_methods : List (String × (String → Except NovaException String))

/-- `NovaClientPlugin.get_console_urls`: builds the fixed five-entry
`console_methods` dictionary over the given server's console getters. -/
def get_console_urls (server : ServerConsoleApi) : ConsoleUrls :=
  ⟨[("novnc", server.get_vnc_console),
    ("xvpvnc", server.get_vnc_console),
    ("spice-html5", server.get_spice_console),
    ("rdp-html5", server.get_rdp_console),
    ("serial", server.get_serial_console)]⟩

/-- `starts_with needle hay`: the first list is an initial segment of the
second. -/
def starts_with : List Char → List Char → Bool
  | [], _ => true
  | _ :: _, [] => false
  | a :: as, b :: bs => a == b && starts_with as bs

/-- The Python substring operator `needle in hay`, on character lists. -/
def contains_sublist (needle : List Char) : List Char → Bool
  | [] => needle.isEmpty
  | c :: t => starts_with needle (c :: t) || contains_sublist needle t

/-- `ConsoleUrls.__getitem__` (nova.py lines 468-477): look the key up in
`console_methods` (a missing key is a `KeyError`, uncaught), call the method,
and on a `BadRequest` return its message as the URL exactly when the message
contains `'Unavailable console type'`; re-raise otherwise. -/
def ConsoleUrls.getitem (c : ConsoleUrls) (key : String) : Except RaisedError String :=
  match c.console_methods.lookup key with
  | .none => .error (.keyError key)
  | some f =>
    match f key with
    | .ok url => .ok url
    | .error (.badRequest msg) =>
      if contains_sublist "Unavailable console type".data msg.data then .ok msg
      else .error (.nova (.badRequest msg))
    | .error e => .error (.nova e)

/-- `ConsoleUrls.__len__`. -/
def ConsoleUrls.len (c : ConsoleUrls) : Nat :=
  c.console_methods.length

/-- `ConsoleUrls.__iter__`: the keys of `console_methods`, in order. -/
def ConsoleUrls.iter (c : ConsoleUrls) : List String :=
  c.console_methods.map Prod.fst

/-- The configuration values read by `build_userdata` from `cfg.CONF`. -/
structure Conf where
  chef_validator_watch_server_url : String
  chef_validator_metadata_server_url : String
  instance_connection_is_secure : Bool
  instance_connection_https_validate_certificates : Bool
deriving DecidableEq, Repr

/-- `"%s" % b` on a Python boolean. -/
def py_bool_repr (b : Bool) : String :=
  if b then "True" else "False"

/-- Model of the standard library `urlparse(url).hostname` for the URL
strings used here: `none` when the URL has no `//`-introduced network
location, otherwise the network location stripped of userinfo and port and
lowercased. -/
def urlparse_hostname (url : String) : Option String :=
  match url.splitOn "://" with
  | _ :: rest :: _ =>
    let netloc := ((rest.splitOn "/").headD "").splitOn "?" |>.headD ""
    let host := (((netloc.splitOn "@").getLastD "").splitOn ":").headD ""
    if host.isEmpty then none else some host.toLower
  | _ => none

/-- The `[Boto]` access-configuration block assembled at nova.py lines
356-371: two security flags from the configuration plus the hostnames of the
metadata-server and watch-server URLs. -/
def boto_cfg (conf : Conf) : String :=
  String.intercalate "\n"
    ["[Boto]",
     "debug = 0",
     "is_secure = " ++ py_bool_repr conf.instance_connection_is_secure,
     "https_validate_certificates = " ++
       py_bool_repr conf.instance_connection_https_validate_certificates,
     "cfn_region_name = chef_validator",
     "cfn_region_endpoint = " ++
       py_str_opt (urlparse_hostname conf.chef_validator_metadata_server_url),
     "cloudwatch_region_name = chef_validator",
     "cloudwatch_region_endpoint = " ++
       py_str_opt (urlparse_hostname conf.chef_validator_watch_server_url)]

/-- Modelled from the spec: the packaged `cloudinit/config` template is not
under src/; per the spec it is a fixed configuration script with a single
`add_custom_user` substitution point, here rendered by splicing the custom
user stanza at that point (`string.Template(...).safe_substitute`). -/
def cloudinit_config_template (add_custom_user : String) : String :=
  "#cloud-config\n" ++ (add_custom_user ++ "\nruncmd:\n - setup-chef-validator\n")

/-- Modelled from the spec: the packaged `cloudinit/boothook.sh` template is
not under src/; per the spec it is a fixed boot-hook script with a single
`add_custom_user` substitution point. -/
def cloudinit_boothook_template (add_custom_user : String) : String :=
  "#!/bin/bash\n" ++ (add_custom_user ++ "setenforce 0 || true\n")

/-- Modelled from the spec: the packaged `cloudinit/part_handler.py` script
(not under src/), included verbatim as an attachment. -/
def part_handler_py : String :=
  "#part-handler\nimport datetime\n"

/-- Modelled from the spec: the packaged `cloudinit/loguserdata.py` script
(not under src/), included verbatim as an attachment. -/
def loguserdata_py : String :=
  "#!/usr/bin/env python\nimport subprocess\n"

/-- `os.path.splitext(filename)[0]` for the plain relative file names used
here (no directory part, no leading dot): the name with the suffix starting
at its last `.` removed, or unchanged when it has no `.`. -/
def splitext_root (filename : String) : String :=
  match filename.data.reverse.dropWhile (fun c => c != '.') with
  | [] => filename
  | _ :: root_rev => String.mk root_rev.reverse

/-- One MIME subpart of the assembled payload: its content (the raw userdata
may be `None`), its content-disposition attachment filename, and its media
subtype. -/
structure Attachment where
  content : Option String
  filename : String
  subtype : String
deriving DecidableEq, Repr

/-- `make_subpart(content, filename, subtype=None)` (nova.py lines 285-291):
the subtype defaults to `os.path.splitext(filename)[0]`. -/
def make_subpart (args : Option String × String × Option String) : Attachment :=
  { content := args.1,
    filename := args.2.1,
    subtype := args.2.2.getD (splitext_root args.2.1) }

/-- The result of `build_userdata`: the raw userdata when the format is
`RAW`, otherwise the ordered subparts of the assembled multi-part message. -/
inductive UserDataResult where
  | raw (userdata : Option String)
  | mime (subparts : List Attachment)
deriving DecidableEq, Repr

/-- `NovaClientPlugin.build_userdata` (nova.py lines 262-378).
`parse_multipart` models `email.message_from_string` together with
`is_multipart()` and per-part payload/filename/subtype extraction: `some
parts` when the userdata parses as a multi-part message, `none` otherwise
(a parse failure is swallowed and treated as non-multipart). -/
def build_userdata (conf : Conf)
    (parse_multipart : Option String → Option (List (Option String × String × String)))
    (metadata : Option PyValue) (userdata : Option String)
    (instance_user : Option String) (user_data_format : String) : UserDataResult :=
  if user_data_format == "RAW" then .raw userdata
  else
    let is_cfntools := user_data_format == "chef_validator_CFNTOOLS"
    let is_software_config := user_data_format == "SOFTWARE_CONFIG"
    let config_custom_user :=
      match instance_user with
      | some u => if u.isEmpty then "" else "user: " ++ u
      | none => ""
    let boothook_custom_user :=
      match instance_user with
      | some u =>
        if u.isEmpty then ""
        else "useradd -m " ++ (u ++ ("\necho -e \x27" ++
          (u ++ "\tALL=(ALL)\tNOPASSWD: ALL\x27 >> /etc/sudoers\n")))
      | none => ""
    let cloudinit_config := cloudinit_config_template config_custom_user
    let cloudinit_boothook := cloudinit_boothook_template boothook_custom_user
    let attachments : List (Option String × String × Option String) :=
      [(some cloudinit_config, "cloud-config", none),
       (some cloudinit_boothook, "boothook.sh", some "cloud-boothook"),
       (some part_handler_py, "part-handler.py", none)]
    let attachments := attachments ++
      (if is_cfntools then [(userdata, "cfn-userdata", some "x-cfninitdata")]
       else if is_software_config then
         match parse_multipart userdata with
         | some parts => parts.map (fun p => (p.1, p.2.1, some p.2.2))
         | none => [(userdata, "userdata", some "x-shellscript")]
       else [])
    let attachments := attachments ++
      (if is_cfntools then
        [(some loguserdata_py, "loguserdata.py", some "x-shellscript")]
       else [])
    let attachments := attachments ++
      (match metadata with
       | some md => if md.truthy then
           [(some (dumps md), "cfn-init-data", some "x-cfninitdata")]
         else []
       | none => [])
    let attachments := attachments ++
      [(some conf.chef_validator_watch_server_url, "cfn-watch-server",
        some "x-cfninitdata")]
    let attachments := attachments ++
      (if is_cfntools then
        [(some conf.chef_validator_metadata_server_url, "cfn-metadata-server",
          some "x-cfninitdata"),
         (some (boto_cfg conf), "cfn-boto-cfg", some "x-cfninitdata")]
       else [])
    .mime (attachments.map make_subpart)

/-- The keystone exception classes the middleware distinguishes: the four
caught at auth_password.py lines 61-64, and `other` for anything else
(which propagates). -/
inductive KeystoneException where
  | unauthorized
  | forbidden
  | notFound
  | authorizationFailure
  | other
deriving DecidableEq, Repr

/-- Whether the exception is one of the four classes caught by the
middleware's `except` clause. -/
def KeystoneException.caught : KeystoneException → Bool
  | .other => false
  | _ => true

/-- The token payload returned by `ctx.auth_plugin.get_access`, in its two
shapes: the newer flat shape whose `version` entry is `'v3'` (project and
roles at top level, token under `auth_token`) and the older nested shape
(tenant and token id under `token`, roles under `user`, an explicit service
catalog). `role_names` lists `role['name']` for each role entry. -/
inductive TokenInfo where
  | v3 (project_id project_name user_id user_name : String)
       (role_names : List String) (auth_token : String)
  | v2 (user_id user_name : String) (role_names : List String)
       (tenant_id tenant_name token_id : String) (serviceCatalog : String)
deriving DecidableEq, Repr

/-- The value stored under `keystone.token_info`: the v3 branch wraps the
token payload as `{'token': token_info}`, the v2 branch stores it as is. -/
inductive KeystoneTokenRef where
  | wrapped (t : TokenInfo)
  | plain (t : TokenInfo)
deriving DecidableEq, Repr

/-- The headers injected into the forwarded WSGI environment by
`_build_user_headers`. -/
structure UserHeaders where
  keystone_token_info : KeystoneTokenRef
  http_x_identity_status : String
  http_x_project_id : String
  http_x_project_name : String
  http_x_user_id : String
  http_x_user_name : String
  http_x_roles : String
  http_x_service_catalog : Option String
  http_x_auth_token : String
deriving DecidableEq, Repr

/-- `KeystonePasswordAuthProtocol._build_user_headers`
(auth_password.py lines 77-112): select the field-extraction logic by the
token shape and emit the identity headers, joining role names with commas. -/
def build_user_headers (token_info : TokenInfo) : UserHeaders :=
  match token_info with
  | .v3 project_id project_name user_id user_name role_names auth_token =>
    { keystone_token_info := .wrapped token_info,
      http_x_identity_status := "Confirmed",
      http_x_project_id := project_id,
      http_x_project_name := project_name,
      http_x_user_id := user_id,
      http_x_user_name := user_name,
      http_x_roles := String.intercalate "," role_names,
      http_x_service_catalog := none,
      http_x_auth_token := auth_token }
  | .v2 user_id user_name role_names tenant_id tenant_name token_id catalog =>
    { keystone_token_info := .plain token_info,
      http_x_identity_status := "Confirmed",
      http_x_project_id := tenant_id,
      http_x_project_name := tenant_name,
      http_x_user_id := user_id,
      http_x_user_name := user_name,
      http_x_roles := String.intercalate "," role_names,
      http_x_service_catalog := some catalog,
      http_x_auth_token := token_id }

/-- The request headers the middleware reads from the WSGI environment. -/
structure AuthEnv where
  http_x_auth_user : Option String
  http_x_auth_key : Option String
  http_x_auth_url : Option String
deriving DecidableEq, Repr

/-- The HTTP 401 response produced by `_reject_request`: its status, its
`WWW-Authenticate` header, and its body. -/
structure Rejection where
  status : Nat
  www_authenticate : String
  body : String
deriving DecidableEq, Repr

/-- The middleware's response: a 401 rejection, or the request forwarded to
the wrapped application with the identity headers injected. -/
inductive AuthResponse where
  | unauthorized (rejection : Rejection)
  | forwarded (headers : UserHeaders)
deriving DecidableEq, Repr

/-- `KeystonePasswordAuthProtocol._reject_request`
(auth_password.py lines 70-75): an `HTTPUnauthorized` (401) carrying a
`WWW-Authenticate: Keystone uri='<auth_url>'` challenge. -/
def reject_request (auth_url : Option String) : AuthResponse :=
  .unauthorized
    { status := 401,
      www_authenticate := "Keystone uri=\x27" ++ py_str_opt auth_url ++ "\x27",
      body := "Authentication required" }

/-- Python truthiness of an optional header value (`if not tenant:`). -/
def truthy_header : Option String → Bool
  | some s => !s.isEmpty
  | none => false

/-- `KeystonePasswordAuthProtocol.__call__` (auth_password.py lines 41-68),
as a function of the request environment and the outcome of the
`ctx.auth_plugin.get_access(self.session)` call. The tenant is the
username header itself (line 48); a falsy tenant is rejected before any
keystone call is made, which is why the result ignores `get_access` in that
case. Only the four `caught` exception classes lead to a rejection; any
other exception propagates. -/
def middleware_call (env : AuthEnv)
    (get_access : Except KeystoneException TokenInfo) :
    Except KeystoneException AuthResponse :=
  let username := env.http_x_auth_user
  let tenant := username
  let auth_url := env.http_x_auth_url
  if !truthy_header tenant then .ok (reject_request auth_url)
  else
    match get_access with
    | .ok auth_ref => .ok (.forwarded (build_user_headers auth_ref))
    | .error e =>
      if e.caught then .ok (reject_request auth_url)
      else .error e

/-- The string `needle` occurs as a contiguous substring of `hay`. -/
def contains_substring (hay needle : String) : Prop :=
  ∃ p q : List Char, hay.data = p ++ (needle.data ++ q)

/-! ## Helper lemmas -/

theorem takeWhile_all_ne (s : List Char) (h : '(' ∉ s) :
    s.takeWhile (fun c => c != '(') = s := by
  induction s with
  | nil => rfl
  | cons a as ih =>
    simp only [List.takeWhile_cons, bne_iff_ne, ne_eq]
    have ha : a ≠ '(' := fun e => h (e ▸ List.mem_cons_self a as)
    simp [ha, ih (fun hm => h (List.mem_cons_of_mem _ hm))]

theorem takeWhile_stops (s t : List Char) (h : '(' ∉ s) :
    (s ++ '(' :: t).takeWhile (fun c => c != '(') = s := by
  induction s with
  | nil => simp [List.takeWhile_cons]
  | cons a as ih =>
    simp only [List.cons_append, List.takeWhile_cons, bne_iff_ne, ne_eq]
    have ha : a ≠ '(' := fun e => h (e ▸ List.mem_cons_self a as)
    simp [ha, ih (fun hm => h (List.mem_cons_of_mem _ hm))]

/-- Normal form of `fetch_server` on a failed provider call: the error is
absorbed into `none` exactly for over-limit, or for a client exception whose
`http_status`-or-`code` is 500 or 503. -/
theorem fetch_error_eq (exc : NovaException) :
    fetch_server (.error exc) =
      (if is_over_limit exc || (is_client_exception exc &&
          (http_status_or_code exc == some 500 || http_status_or_code exc == some 503))
       then .ok none else .error exc) := by
  unfold fetch_server
  cases hov : is_over_limit exc <;> cases hce : is_client_exception exc <;>
    cases hsc : (http_status_or_code exc == some 500 || http_status_or_code exc == some 503) <;>
    simp [hov, hce, hsc]

/-- Normal form of `refresh_server` on a failed `server.get()` call, with the
same absorption condition as `fetch_server`. -/
theorem refresh_error_eq (server : Server) (exc : NovaException) :
    refresh_server server (.error exc) =
      (if is_over_limit exc || (is_client_exception exc &&
          (http_status_or_code exc == some 500 || http_status_or_code exc == some 503))
       then .ok server else .error exc) := by
  unfold refresh_server
  cases hov : is_over_limit exc <;> cases hce : is_client_exception exc <;>
    cases hsc : (http_status_or_code exc == some 500 || http_status_or_code exc == some 503) <;>
    simp [hov, hce, hsc]

/-! ## Claims -/

/-- Claim C1 (code-bug evaluation): on a fetched snapshot with a deferred
status `_check_active` returns `False`, and on `ACTIVE` it returns `True`; but
on status `ERROR` (and likewise on an unrecognized status) the attempted
`raise resource.ResourceInError(...)` / `raise resource.ResourceUnknownStatus(...)`
itself fails with `AttributeError`, because the module-global `resource` is
`None` (nova.py line 41), so no "resource entered error state" (or
"unrecognized status") condition carrying the fault's message and code is
ever raised. -/
theorem check_active_error_status_attribute_error :
    check_active (.byId (.ok ⟨"BUILD", "server-1", none, none, []⟩)) "Server" = .ok false ∧
    check_active (.byId (.ok ⟨"ACTIVE", "server-1", none, none, []⟩)) "Server" = .ok true ∧
    check_active (.byId (.ok ⟨"ERROR", "server-1",
        some ⟨some "boom", some "42"⟩, none, []⟩)) "Server" =
      .error (.attributeError
        "\x27NoneType\x27 object has no attribute \x27ResourceInError\x27") ∧
    check_active (.byId (.ok ⟨"UNEXPECTED", "server-1", none, none, []⟩)) "Server" =
      .error (.attributeError
        "\x27NoneType\x27 object has no attribute \x27ResourceUnknownStatus\x27") :=
  ⟨rfl, rfl, rfl, rfl⟩

/-- Claim C2 (code-bug evaluation): `check_delete_server_complete` returns
`True` when the fetch raises not-found and when the status is `DELETED` or
`SOFT_DELETED`, returns `False` when the fetch yields `None` (transient 503)
and when the task state is `"deleting"` (even with status `DELETED`), and
returns `False` on any other status; but on status `ERROR` the attempted
`raise resource.ResourceInError(...)` fails with `AttributeError` because the
module-global `resource` is `None` (nova.py line 41), so no delete-failed
condition carrying fault detail is raised. -/
theorem check_delete_error_status_attribute_error :
    check_delete_server_complete (.error .notFound) = .ok true ∧
    check_delete_server_complete (.error (.clientException (some 503) none)) = .ok false ∧
    check_delete_server_complete (.ok ⟨"DELETED", "server-1", none, some "deleting", []⟩) =
      .ok false ∧
    check_delete_server_complete (.ok ⟨"DELETED", "server-1", none, none, []⟩) = .ok true ∧
    check_delete_server_complete (.ok ⟨"SOFT_DELETED", "server-1", none, none, []⟩) = .ok true ∧
    check_delete_server_complete (.ok ⟨"ACTIVE", "server-1", none, none, []⟩) = .ok false ∧
    check_delete_server_complete (.ok ⟨"ERROR", "server-1",
        some ⟨some "boom", some "42"⟩, none, []⟩) =
      .error (.attributeError
        "\x27NoneType\x27 object has no attribute \x27ResourceInError\x27") :=
  ⟨rfl, rfl, rfl, rfl, rfl, rfl, rfl⟩

/-- Claim C3: `fetch_server` returns the fetched server on success, and on a
raised provider error returns `None` (absent) exactly when the error is
over-limit or a client exception whose `http_status`-or-`code` attribute is
500 or 503; every other error — including not-found — propagates unchanged. -/
theorem fetch_server_absorbs_transients (exc : NovaException) (server : Server) :
    fetch_server (.ok server) = .ok (some server) ∧
    fetch_server (.error exc) =
      (if is_over_limit exc || (is_client_exception exc &&
          (http_status_or_code exc == some 500 || http_status_or_code exc == some 503))
       then .ok none else .error exc) ∧
    fetch_server (.error .notFound) = .error .notFound :=
  ⟨rfl, fetch_error_eq exc, rfl⟩

/-- Claim C4: when serialization of the desired mapping succeeds,
`meta_update` issues a `delete_meta` of exactly the current keys absent from
the serialized desired mapping — first, and only when that key list is
non-empty — followed unconditionally by a `set_meta` of the full serialized
desired mapping (no per-key value diffing). -/
theorem meta_update_delete_then_set (server : Server) (m : PyValue)
    (md : List (String × String)) (hm : meta_serialize m = .ok md) (k : String) :
    meta_update server m =
      .ok ((if ((server.metadata.map Prod.fst).filter
                (fun key => !((md.map Prod.fst).contains key))).length > 0
            then [MetaOp.delete_meta
                ((server.metadata.map Prod.fst).filter
                  (fun key => !((md.map Prod.fst).contains key)))]
            else []) ++ [MetaOp.set_meta md]) ∧
    (k ∈ (server.metadata.map Prod.fst).filter
          (fun key => !((md.map Prod.fst).contains key)) ↔
        k ∈ server.metadata.map Prod.fst ∧ k ∉ md.map Prod.fst) := by
  constructor
  · simp [meta_update, hm]
  · simp [List.mem_filter]

/-- Witness for the metadata reconciliation claim at the spec's example:
`reconcile({a:1,b:2}, {b:2,c:3})` deletes exactly `a` (before the set) and
then sets the full serialized desired mapping. -/
theorem meta_update_delete_then_set_witness :
    meta_update ⟨"ACTIVE", "server-1", none, none, [("a", "1"), ("b", "2")]⟩
        (.dict [("b", .str "2"), ("c", .str "3")]) =
      .ok [MetaOp.delete_meta ["a"], MetaOp.set_meta [("b", "2"), ("c", "3")]] ∧
    ("a" ∈ (["a", "b"] : List String) ∧ "a" ∉ (["b", "c"] : List String)) := by
  have h := meta_update_delete_then_set
    ⟨"ACTIVE", "server-1", none, none, [("a", "1"), ("b", "2")]⟩
    (.dict [("b", .str "2"), ("c", .str "3")]) [("b", "2"), ("c", "3")] rfl "a"
  exact ⟨h.1.trans rfl, h.2.mp (by decide)⟩

/-- Claim C6: status classification truncates the raw status at the first
parenthesis, so a status `s(t` is classified exactly like `s` — by
`get_status` itself, by `_check_active` (both on an id and on a snapshot,
with any refresh outcome), and by `check_delete_server_complete`. -/
theorem get_status_strips_parenthetical (s t : List Char) (h : '(' ∉ s)
    (name : String) (fault : Option Fault) (task : Option String)
    (md : List (String × String)) (r : Except NovaException Server) (rn : String) :
    get_status ⟨⟨s ++ '(' :: t⟩, name, fault, task, md⟩ =
      get_status ⟨⟨s⟩, name, fault, task, md⟩ ∧
    check_active (.byId (.ok ⟨⟨s ++ '(' :: t⟩, name, fault, task, md⟩)) rn =
      check_active (.byId (.ok ⟨⟨s⟩, name, fault, task, md⟩)) rn ∧
    check_active (.bySnapshot ⟨⟨s ++ '(' :: t⟩, name, fault, task, md⟩ r) rn =
      check_active (.bySnapshot ⟨⟨s⟩, name, fault, task, md⟩ r) rn ∧
    check_delete_server_complete (.ok ⟨⟨s ++ '(' :: t⟩, name, fault, task, md⟩) =
      check_delete_server_complete (.ok ⟨⟨s⟩, name, fault, task, md⟩) := by
  have hg1 : get_status ⟨⟨s ++ '(' :: t⟩, name, fault, task, md⟩ = ⟨s⟩ := by
    simp [get_status, takeWhile_stops s t h]
  have hg2 : get_status ⟨⟨s⟩, name, fault, task, md⟩ = ⟨s⟩ := by
    simp [get_status, takeWhile_all_ne s h]
  have htail : ∀ (s1 s2 : Server) (st : String),
      check_active_tail s1 st rn = check_active_tail s2 st rn := fun _ _ _ => rfl
  refine ⟨hg1.trans hg2.symm, ?_, ?_, ?_⟩
  · simp only [check_active, fetch_server]
    rw [hg1, hg2]
    exact htail _ _ _
  · simp only [check_active]
    rw [hg1, hg2]
    split
    · rcases r with exc | snew
      · rw [refresh_error_eq, refresh_error_eq]
        cases hC : (is_over_limit exc || (is_client_exception exc &&
            (http_status_or_code exc == some 500 || http_status_or_code exc == some 503)))
        · simp [hC]
        · simp [hC, hg1, hg2]
          exact htail _ _ _
      · rfl
    · exact htail _ _ _
  · simp only [check_delete_server_complete, fetch_server]
    rw [hg1, hg2]
    rfl

/-- Witness for the parenthetical-suffix claim at `ACTIVE(foo)`. -/
theorem get_status_strips_parenthetical_witness :
    get_status ⟨⟨"ACTIVE".data ++ '(' :: "foo)".data⟩, "server-1", none, none, []⟩ =
      get_status ⟨⟨"ACTIVE".data⟩, "server-1", none, none, []⟩ ∧
    check_active (.byId (.ok ⟨⟨"ACTIVE".data ++ '(' :: "foo)".data⟩,
        "server-1", none, none, []⟩)) "Server" =
      check_active (.byId (.ok ⟨⟨"ACTIVE".data⟩, "server-1", none, none, []⟩)) "Server" ∧
    check_active (.bySnapshot ⟨⟨"ACTIVE".data ++ '(' :: "foo)".data⟩,
        "server-1", none, none, []⟩ (.ok ⟨"ACTIVE", "server-1", none, none, []⟩)) "Server" =
      check_active (.bySnapshot ⟨⟨"ACTIVE".data⟩, "server-1", none, none, []⟩
        (.ok ⟨"ACTIVE", "server-1", none, none, []⟩)) "Server" ∧
    check_delete_server_complete (.ok ⟨⟨"ACTIVE".data ++ '(' :: "foo)".data⟩,
        "server-1", none, none, []⟩) =
      check_delete_server_complete (.ok ⟨⟨"ACTIVE".data⟩, "server-1", none, none, []⟩) :=
  get_status_strips_parenthetical "ACTIVE".data "foo)".data (by decide)
    "server-1" none none [] (.ok ⟨"ACTIVE", "server-1", none, none, []⟩) "Server"

/-- Claim C7: `meta_serialize` rejects any non-mapping with the validation
failure; on a mapping it keeps every string value unchanged and JSON-encodes
every other value, preserving the keys (in particular `{k: [1,2]}` maps to
`{k: "[1, 2]"}`). -/
theorem meta_serialize_values (v : PyValue) (hv : v.is_mapping = false)
    (entries : List (String × PyValue)) :
    meta_serialize v =
      .error (.stackValidationFailed "nova server metadata needs to be a Map.") ∧
    meta_serialize (.dict entries) =
      .ok (entries.map (fun kv =>
        (kv.1, match kv.2 with
               | .str s => s
               | w => dumps w))) ∧
    (entries.map (fun kv =>
        (kv.1, match kv.2 with
               | .str s => s
               | w => dumps w))).map Prod.fst = entries.map Prod.fst ∧
    meta_serialize (.dict [("k", .list [.int 1, .int 2]), ("m", .str "x")]) =
      .ok [("k", "[1, 2]"), ("m", "x")] := by
  refine ⟨?_, rfl, ?_, rfl⟩
  · cases v <;> simp_all [PyValue.is_mapping, meta_serialize]
  · rw [List.map_map]
    rfl

/-- Witness for the metadata serialization claim: a string input fails
validation, and the spec's example mapping serializes as stated. -/
theorem meta_serialize_values_witness :
    meta_serialize (.str "a") =
      .error (.stackValidationFailed "nova server metadata needs to be a Map.") ∧
    meta_serialize (.dict [("k", .list [.int 1, .int 2]), ("m", .str "x")]) =
      .ok [("k", "[1, 2]"), ("m", "x")] ∧
    ([("k", "[1, 2]"), ("m", "x")] : List (String × String)).map Prod.fst =
      ([("k", .list [.int 1, .int 2]), ("m", .str "x")] :
        List (String × PyValue)).map Prod.fst ∧
    meta_serialize (.dict [("k", .list [.int 1, .int 2]), ("m", .str "x")]) =
      .ok [("k", "[1, 2]"), ("m", "x")] :=
  meta_serialize_values (.str "a") rfl [("k", .list [.int 1, .int 2]), ("m", .str "x")]

/-- Claim C5: in `chef_validator_CFNTOOLS` mode (the toolchain-managed
format), with a non-empty instance user and no metadata, the assembled
multi-part message consists of exactly the ordered attachments
config, boothook, part-handler, cfn-userdata, loguserdata, watch-server-url,
metadata-server-url, boto-config, and both the rendered config and boothook
scripts contain the user-creation stanza for the given user. -/
theorem build_userdata_cfntools_sequence (conf : Conf)
    (parse_multipart : Option String → Option (List (Option String × String × String)))
    (userdata : Option String) (u : String) (hu : u.isEmpty = false) :
    build_userdata conf parse_multipart none userdata (some u) "chef_validator_CFNTOOLS" =
      .mime
        [⟨some (cloudinit_config_template ("user: " ++ u)), "cloud-config", "cloud-config"⟩,
         ⟨some (cloudinit_boothook_template ("useradd -m " ++ (u ++ ("\necho -e \x27" ++
            (u ++ "\tALL=(ALL)\tNOPASSWD: ALL\x27 >> /etc/sudoers\n"))))),
          "boothook.sh", "cloud-boothook"⟩,
         ⟨some part_handler_py, "part-handler.py", "part-handler"⟩,
         ⟨userdata, "cfn-userdata", "x-cfninitdata"⟩,
         ⟨some loguserdata_py, "loguserdata.py", "x-shellscript"⟩,
         ⟨some conf.chef_validator_watch_server_url, "cfn-watch-server", "x-cfninitdata"⟩,
         ⟨some conf.chef_validator_metadata_server_url, "cfn-metadata-server",
          "x-cfninitdata"⟩,
         ⟨some (boto_cfg conf), "cfn-boto-cfg", "x-cfninitdata"⟩] ∧
    contains_substring (cloudinit_config_template ("user: " ++ u)) ("user: " ++ u) ∧
    contains_substring
      (cloudinit_boothook_template ("useradd -m " ++ (u ++ ("\necho -e \x27" ++
        (u ++ "\tALL=(ALL)\tNOPASSWD: ALL\x27 >> /etc/sudoers\n")))))
      ("useradd -m " ++ (u ++ ("\necho -e \x27" ++
        (u ++ "\tALL=(ALL)\tNOPASSWD: ALL\x27 >> /etc/sudoers\n")))) := by
  refine ⟨?_, ?_, ?_⟩
  · simp only [build_userdata, hu]
    rfl
  · exact ⟨"#cloud-config\n".data, "\nruncmd:\n - setup-chef-validator\n".data,
      by simp [cloudinit_config_template, String.data_append]⟩
  · exact ⟨"#!/bin/bash\n".data, "setenforce 0 || true\n".data,
      by simp [cloudinit_boothook_template, String.data_append]⟩

/-- Witness for the boot-payload claim with user `deploy` and a concrete
configuration. -/
theorem build_userdata_cfntools_sequence_witness :
    build_userdata ⟨"http://watch.example.com/w", "http://md.example.com/m", true, false⟩
        (fun _ => none) none (some "echo hi") (some "deploy") "chef_validator_CFNTOOLS" =
      .mime
        [⟨some (cloudinit_config_template "user: deploy"), "cloud-config", "cloud-config"⟩,
         ⟨some (cloudinit_boothook_template
            "useradd -m deploy\necho -e \x27deploy\tALL=(ALL)\tNOPASSWD: ALL\x27 >> /etc/sudoers\n"),
          "boothook.sh", "cloud-boothook"⟩,
         ⟨some part_handler_py, "part-handler.py", "part-handler"⟩,
         ⟨some "echo hi", "cfn-userdata", "x-cfninitdata"⟩,
         ⟨some loguserdata_py, "loguserdata.py", "x-shellscript"⟩,
         ⟨some "http://watch.example.com/w", "cfn-watch-server", "x-cfninitdata"⟩,
         ⟨some "http://md.example.com/m", "cfn-metadata-server", "x-cfninitdata"⟩,
         ⟨some (boto_cfg ⟨"http://watch.example.com/w", "http://md.example.com/m",
            true, false⟩), "cfn-boto-cfg", "x-cfninitdata"⟩] ∧
    contains_substring (cloudinit_config_template "user: deploy") "user: deploy" ∧
    contains_substring
      (cloudinit_boothook_template
        "useradd -m deploy\necho -e \x27deploy\tALL=(ALL)\tNOPASSWD: ALL\x27 >> /etc/sudoers\n")
      "useradd -m deploy\necho -e \x27deploy\tALL=(ALL)\tNOPASSWD: ALL\x27 >> /etc/sudoers\n" :=
  build_userdata_cfntools_sequence
    ⟨"http://watch.example.com/w", "http://md.example.com/m", true, false⟩
    (fun _ => none) (some "echo hi") "deploy" rfl

/-- Claim C8: the middleware handles both token shapes — for a v3 (flat)
token and for a v2 (nested) token it forwards the request with the injected
identity headers (`Confirmed` status, project/tenant id and name, user id
and name, comma-joined role names, service catalog, auth token) — and on an
authentication failure of one of the caught keystone exception classes it
responds 401 with a `WWW-Authenticate` challenge naming the auth-service
URL. -/
theorem auth_middleware_token_shapes (env : AuthEnv) (u : String)
    (hu : env.http_x_auth_user = some u) (hne : u.isEmpty = false)
    (project_id project_name user_id user_name : String) (role_names : List String)
    (auth_token tenant_id tenant_name token_id catalog : String)
    (e : KeystoneException) (he : e.caught = true) :
    middleware_call env
        (.ok (.v3 project_id project_name user_id user_name role_names auth_token)) =
      .ok (.forwarded
        { keystone_token_info :=
            .wrapped (.v3 project_id project_name user_id user_name role_names auth_token),
          http_x_identity_status := "Confirmed",
          http_x_project_id := project_id,
          http_x_project_name := project_name,
          http_x_user_id := user_id,
          http_x_user_name := user_name,
          http_x_roles := String.intercalate "," role_names,
          http_x_service_catalog := none,
          http_x_auth_token := auth_token }) ∧
    middleware_call env
        (.ok (.v2 user_id user_name role_names tenant_id tenant_name token_id catalog)) =
      .ok (.forwarded
        { keystone_token_info :=
            .plain (.v2 user_id user_name role_names tenant_id tenant_name token_id catalog),
          http_x_identity_status := "Confirmed",
          http_x_project_id := tenant_id,
          http_x_project_name := tenant_name,
          http_x_user_id := user_id,
          http_x_user_name := user_name,
          http_x_roles := String.intercalate "," role_names,
          http_x_service_catalog := some catalog,
          http_x_auth_token := token_id }) ∧
    middleware_call env (.error e) =
      .ok (.unauthorized
        { status := 401,
          www_authenticate :=
            "Keystone uri=\x27" ++ py_str_opt env.http_x_auth_url ++ "\x27",
          body := "Authentication required" }) := by
  refine ⟨?_, ?_, ?_⟩ <;>
    simp [middleware_call, truthy_header, hu, hne, he, build_user_headers, reject_request]

/-- Witness for the token-shape claim at concrete v2/v3 tokens and a caught
`Unauthorized` failure. -/
theorem auth_middleware_token_shapes_witness :
    middleware_call ⟨some "bob", some "pw", some "http://ks.example.com"⟩
        (.ok (.v3 "pid" "pname" "uid" "uname" ["admin", "member"] "tok")) =
      .ok (.forwarded
        { keystone_token_info :=
            .wrapped (.v3 "pid" "pname" "uid" "uname" ["admin", "member"] "tok"),
          http_x_identity_status := "Confirmed",
          http_x_project_id := "pid",
          http_x_project_name := "pname",
          http_x_user_id := "uid",
          http_x_user_name := "uname",
          http_x_roles := "admin,member",
          http_x_service_catalog := none,
          http_x_auth_token := "tok" }) ∧
    middleware_call ⟨some "bob", some "pw", some "http://ks.example.com"⟩
        (.ok (.v2 "uid" "uname" ["admin", "member"] "tid" "tname" "tokid" "catalog")) =
      .ok (.forwarded
        { keystone_token_info :=
            .plain (.v2 "uid" "uname" ["admin", "member"] "tid" "tname" "tokid" "catalog"),
          http_x_identity_status := "Confirmed",
          http_x_project_id := "tid",
          http_x_project_name := "tname",
          http_x_user_id := "uid",
          http_x_user_name := "uname",
          http_x_roles := "admin,member",
          http_x_service_catalog := some "catalog",
          http_x_auth_token := "tokid" }) ∧
    middleware_call ⟨some "bob", some "pw", some "http://ks.example.com"⟩
        (.error .unauthorized) =
      .ok (.unauthorized
        { status := 401,
          www_authenticate := "Keystone uri=\x27http://ks.example.com\x27",
          body := "Authentication required" }) :=
  auth_middleware_token_shapes ⟨some "bob", some "pw", some "http://ks.example.com"⟩
    "bob" rfl rfl "pid" "pname" "uid" "uname" ["admin", "member"]
    "tok" "tid" "tname" "tokid" "catalog" .unauthorized rfl

/-- Claim C9: a console lookup whose provider call raises a bad request
returns the error's message as the URL exactly when that message contains
the `Unavailable console type` marker, and re-raises the bad request
otherwise; enumeration of the console mapping always yields the fixed
five-element supported-type set, in order. -/
theorem console_urls_lookup (api : ServerConsoleApi) (key msg : String)
    (f : String → Except NovaException String)
    (hf : (get_console_urls api).console_methods.lookup key = some f)
    (hcall : f key = .error (.badRequest msg)) :
    (get_console_urls api).getitem key =
      (if contains_sublist "Unavailable console type".data msg.data then .ok msg
       else .error (.nova (.badRequest msg))) ∧
    (get_console_urls api).len = 5 ∧
    (get_console_urls api).iter =
      ["novnc", "xvpvnc", "spice-html5", "rdp-html5", "serial"] := by
  refine ⟨?_, rfl, rfl⟩
  simp only [ConsoleUrls.getitem, hf, hcall]

/-- Witness for the console-lookup claim: a serial console whose provider
call reports `Unavailable console type serial` yields that message as the
URL. -/
theorem console_urls_lookup_witness :
    (get_console_urls
        ⟨fun _ => .ok "http://vnc", fun _ => .ok "http://spice",
         fun _ => .ok "http://rdp",
         fun _ => .error (.badRequest "Unavailable console type serial")⟩).getitem
        "serial" =
      (if contains_sublist "Unavailable console type".data
          "Unavailable console type serial".data then
        .ok "Unavailable console type serial"
       else .error (.nova (.badRequest "Unavailable console type serial"))) ∧
    (get_console_urls
        ⟨fun _ => .ok "http://vnc", fun _ => .ok "http://spice",
         fun _ => .ok "http://rdp",
         fun _ => .error (.badRequest "Unavailable console type serial")⟩).len = 5 ∧
    (get_console_urls
        ⟨fun _ => .ok "http://vnc", fun _ => .ok "http://spice",
         fun _ => .ok "http://rdp",
         fun _ => .error (.badRequest "Unavailable console type serial")⟩).iter =
      ["novnc", "xvpvnc", "spice-html5", "rdp-html5", "serial"] :=
  console_urls_lookup
    ⟨fun _ => .ok "http://vnc", fun _ => .ok "http://spice",
     fun _ => .ok "http://rdp",
     fun _ => .error (.badRequest "Unavailable console type serial")⟩
    "serial" "Unavailable console type serial"
    (fun _ => .error (.badRequest "Unavailable console type serial")) rfl rfl

/-- Claim C10: a request whose `X-Auth-User` header is absent or empty is
rejected with 401 and the `WWW-Authenticate` challenge naming the
auth-service URL, whatever the keystone call would have returned — the
tenant is derived from the username header, and the rejection happens before
the auth service would be contacted. -/
theorem auth_middleware_rejects_missing_user (env : AuthEnv)
    (get_access : Except KeystoneException TokenInfo)
    (h : env.http_x_auth_user = none ∨ env.http_x_auth_user = some "") :
    middleware_call env get_access =
      .ok (.unauthorized
        { status := 401,
          www_authenticate :=
            "Keystone uri=\x27" ++ py_str_opt env.http_x_auth_url ++ "\x27",
          body := "Authentication required" }) := by
  rcases h with h | h <;>
    simp [middleware_call, truthy_header, h, reject_request,
      show ("" : String).isEmpty = true from rfl]

/-- Witness for the missing-user claim: an absent username header is
rejected even though the keystone call would have succeeded. -/
theorem auth_middleware_rejects_missing_user_witness :
    middleware_call ⟨none, some "pw", some "http://ks.example.com"⟩
        (.ok (.v3 "pid" "pname" "uid" "uname" [] "tok")) =
      .ok (.unauthorized
        { status := 401,
          www_authenticate := "Keystone uri=\x27http://ks.example.com\x27",
          body := "Authentication required" }) :=
  auth_middleware_rejects_missing_user ⟨none, some "pw", some "http://ks.example.com"⟩
    (.ok (.v3 "pid" "pname" "uid" "uname" [] "tok")) (.inl rfl)

end ChefValidator
